import Mathlib

/-!
Verification of the pyohm conductor thermal model: a shallow embedding of
the Conductor class from pyohm/models/conductor.py, with the calendar
arithmetic of the Python datetime library embedded for day-of-year, and
theorems settling the behavioural claims about the model.
-/

open Real Classical

noncomputable section

/-- Calendar date and local hour, standing in for the Python datetime field:
only year, month, day and hour are read by the conductor model. -/
structure CalendarDate where
  year : ℕ
  month : ℕ
  day : ℕ
  hour : ℕ

/-- Leap-year test of the proleptic Gregorian calendar used by the Python
datetime library. -/
def isLeapYear (y : ℕ) : Bool :=
  (y % 4 == 0) && (y % 100 != 0 || y % 400 == 0)

/-- Days in a given month of a given year, following the Python datetime
library calendar. -/
def daysInMonth (y m : ℕ) : ℕ :=
  if m = 2 then (if isLeapYear y then 29 else 28)
  else if m = 4 ∨ m = 6 ∨ m = 9 ∨ m = 11 then 30
  else 31

/-- The conductor state record: the attributes of the Python Conductor class,
with the datetime attribute split into its calendar components. -/
structure Conductor where
  wind_speed : ℝ
  wind_direction : ℝ
  emissivity : ℝ
  solar_absorption : ℝ
  ambient_temperature : ℝ
  conductor_surface_temperature : ℝ
  aluminum_strand_layers_average_temperature : ℝ
  max_allowable_conductor_temperature : ℝ
  conductor_outside_diameter : ℝ
  conductor_low_temperature : ℝ
  conductor_high_temperature : ℝ
  conductor_ac_resistance_low : ℝ
  conductor_ac_resistance_high : ℝ
  azimuth_of_conductor : ℝ
  latitude : ℝ
  clear_atmosphere : Bool
  date : CalendarDate
  elevation : ℝ

namespace Conductor

/-- Embedding of the number_of_day property: the Python datetime subtraction
date(truncated to midnight) minus January 1 of the same year gives the number
of elapsed days, and the property adds one. -/
def number_of_day (s : Conductor) : ℕ :=
  ((List.range (s.date.month - 1)).map (fun i => daysInMonth s.date.year (i + 1))).sum
    + s.date.day

/-- Embedding of t_film: average temperature of the boundary layer. -/
def t_film (s : Conductor) : ℝ :=
  (s.max_allowable_conductor_temperature + s.ambient_temperature) / 2

/-- Embedding of air_density. -/
def air_density (s : Conductor) : ℝ :=
  (1.293 - 1.525e-4 * s.elevation + 6.379e-9 * s.elevation ^ 2) / (1 + 0.00367 * s.t_film)

/-- Embedding of air_viscosity. -/
def air_viscosity (s : Conductor) : ℝ :=
  (1.458e-6 * (s.t_film + 273) ^ (1.5 : ℝ)) / (s.t_film + 383.4)

/-- Embedding of air_thermal_conductivity. -/
def air_thermal_conductivity (s : Conductor) : ℝ :=
  2.424e-2 + 7.477e-5 * s.t_film - 4.407e-9 * s.t_film ^ 2

/-- Embedding of wind_direction_factor. -/
def wind_direction_factor (s : Conductor) : ℝ :=
  1.194 - Real.cos s.wind_direction + 0.194 * Real.cos (2 * s.wind_direction)
    + 0.368 * Real.sin (2 * s.wind_direction)

/-- Embedding of radiated_heat_loss. -/
def radiated_heat_loss (s : Conductor) : ℝ :=
  17.8 * s.conductor_outside_diameter * s.emissivity *
    (((s.conductor_surface_temperature + 273) / 100) ^ 4
      - ((s.ambient_temperature + 273) / 100) ^ 4)

/-- Embedding of solar_declination; math.radians multiplies by pi over 180. -/
def solar_declination (s : Conductor) : ℝ :=
  23.45 * Real.sin ((((284 + (s.number_of_day : ℝ)) / 365) * 360) * (π / 180))

/-- Embedding of hour_angle. -/
def hour_angle (s : Conductor) : ℝ :=
  ((s.date.hour : ℝ) - 12) * 15

/-- The quantity X computed inside the solar_azimuth property. -/
def solar_azimuth_X (s : Conductor) : ℝ :=
  Real.sin s.hour_angle /
    (Real.sin s.latitude * Real.cos s.hour_angle
      - Real.cos s.latitude * Real.tan s.solar_declination)

/-- Embedding of solar_azimuth: the four quadrant branches return a value,
the final else branch raises ValueError, embedded as none. -/
def solar_azimuth (s : Conductor) : Option ℝ :=
  if 0 ≤ s.solar_azimuth_X ∧ -180 ≤ s.hour_angle ∧ s.hour_angle < 0 then
    some (0 + Real.arctan s.solar_azimuth_X)
  else if 0 ≤ s.solar_azimuth_X ∧ 0 ≤ s.hour_angle ∧ s.hour_angle < 180 then
    some (180 + Real.arctan s.solar_azimuth_X)
  else if s.solar_azimuth_X < 0 ∧ -180 ≤ s.hour_angle ∧ s.hour_angle < 0 then
    some (180 + Real.arctan s.solar_azimuth_X)
  else if s.solar_azimuth_X < 0 ∧ 0 ≤ s.hour_angle ∧ s.hour_angle < 180 then
    some (360 + Real.arctan s.solar_azimuth_X)
  else
    none

/-- Embedding of solar_altitude. -/
def solar_altitude (s : Conductor) : ℝ :=
  Real.arcsin (Real.cos s.latitude * Real.cos s.solar_declination * Real.cos s.hour_angle
    + Real.sin s.latitude * Real.sin s.solar_declination)

/-- Embedding of total_solar_and_sky_radiated_heat_intensity_at_sea_level,
with the clear-atmosphere and industrial-atmosphere coefficient tables. -/
def total_solar_and_sky_radiated_heat_intensity_at_sea_level (s : Conductor) : ℝ :=
  if s.clear_atmosphere then
    (-42.2391) + 63.8044 * s.solar_altitude + (-1.9220) * s.solar_altitude ^ 2
      + 3.46921e-2 * s.solar_altitude ^ 3 + (-3.61118e-4) * s.solar_altitude ^ 4
      + 1.94318e-6 * s.solar_altitude ^ 5 + (-4.07608e-9) * s.solar_altitude ^ 6
  else
    53.1821 + 14.2110 * s.solar_altitude + 6.6138e-1 * s.solar_altitude ^ 2
      + (-3.1658e-2) * s.solar_altitude ^ 3 + 5.4654e-4 * s.solar_altitude ^ 4
      + (-4.3446e-6) * s.solar_altitude ^ 5 + 1.3236e-8 * s.solar_altitude ^ 6

/-- Embedding of total_solar_and_sky_radiated_heat_intensity_factor, with the
quadratic coefficient written exactly as in the source: -1.108e8. -/
def total_solar_and_sky_radiated_heat_intensity_factor (s : Conductor) : ℝ :=
  1 + 1.148e-4 * s.elevation + (-1.108e8) * s.elevation ^ 2

/-- Embedding of total_solar_and_sky_radiated_heat_intensity. -/
def total_solar_and_sky_radiated_heat_intensity (s : Conductor) : ℝ :=
  s.total_solar_and_sky_radiated_heat_intensity_factor *
    s.total_solar_and_sky_radiated_heat_intensity_at_sea_level

/-- Embedding of solar_heat_gain, with theta written exactly as in the source:
the cosine of the difference takes solar_altitude, not solar_azimuth. -/
def solar_heat_gain (s : Conductor) : ℝ :=
  s.solar_absorption * s.total_solar_and_sky_radiated_heat_intensity *
    Real.sin (Real.arccos (Real.cos s.solar_altitude *
      Real.cos (s.solar_altitude - s.azimuth_of_conductor))) *
    s.conductor_outside_diameter

/-- Embedding of reynolds_number. -/
def reynolds_number (s : Conductor) : ℝ :=
  (s.conductor_outside_diameter * s.air_density * s.wind_speed) / s.air_viscosity

/-- Embedding of natural_convection_heat_loss. -/
def natural_convection_heat_loss (s : Conductor) : ℝ :=
  3.645 * s.air_density ^ (0.5 : ℝ) * s.conductor_outside_diameter ^ (0.75 : ℝ)
    * (s.conductor_surface_temperature - s.ambient_temperature) ^ (1.25 : ℝ)

/-- Embedding of forced_convection_heat_loss: the larger of the two forced
convection correlations. -/
def forced_convection_heat_loss (s : Conductor) : ℝ :=
  max
    (s.wind_direction_factor * (1.05 + 1.35 * s.reynolds_number ^ (0.52 : ℝ))
      * s.air_thermal_conductivity
      * (s.conductor_surface_temperature - s.ambient_temperature))
    (s.wind_direction_factor * 0.754 * s.reynolds_number ^ (0.6 : ℝ)
      * s.air_thermal_conductivity
      * (s.conductor_surface_temperature - s.ambient_temperature))

/-- Modelled from the spec: the linear resistance interpolation R(T), which is
missing from the source tree (only the test references R_avg). Linear
interpolation of AC resistance between the two reference points, extrapolating
by the same formula outside them. -/
def interpolated_resistance (s : Conductor) (T : ℝ) : ℝ :=
  s.conductor_ac_resistance_low +
    (s.conductor_ac_resistance_high - s.conductor_ac_resistance_low) *
      (T - s.conductor_low_temperature) /
      (s.conductor_high_temperature - s.conductor_low_temperature)

/-- Modelled from the spec: the forward-mode ampacity, which is missing from
the source tree (only the test references I). The radicand is clamped at zero
before the square root. -/
def ampacity (s : Conductor) : ℝ :=
  Real.sqrt (max 0 (s.radiated_heat_loss + s.forced_convection_heat_loss - s.solar_heat_gain)
    / s.interpolated_resistance s.conductor_surface_temperature)

/-- The Drake ACSR default scenario: the state produced by use_default. -/
def drakeDefault : Conductor where
  wind_speed := 0.61
  wind_direction := 90
  emissivity := 0.8
  solar_absorption := 0.8
  ambient_temperature := 40
  conductor_surface_temperature := 100
  aluminum_strand_layers_average_temperature := 100
  max_allowable_conductor_temperature := 100
  conductor_outside_diameter := 0.02814
  conductor_low_temperature := 25
  conductor_high_temperature := 75
  conductor_ac_resistance_low := 7.283e-5
  conductor_ac_resistance_high := 8.688e-5
  azimuth_of_conductor := 90
  latitude := 30
  clear_atmosphere := true
  date := ⟨2023, 6, 10, 11⟩
  elevation := 0

/-- Modelled from the spec: the solar heat gain formula with the effective
incidence angle computed from a solar azimuth value zc, stated for comparison
with the source formula (which uses solar_altitude in the difference). -/
def solar_heat_gain_spec (s : Conductor) (zc : ℝ) : ℝ :=
  s.solar_absorption * s.total_solar_and_sky_radiated_heat_intensity *
    Real.sin (Real.arccos (Real.cos s.solar_altitude *
      Real.cos (zc - s.azimuth_of_conductor))) *
    s.conductor_outside_diameter

end Conductor

open Conductor

/-- A state with zero emissivity and surface temperature 50, otherwise the
Drake defaults: emissivity zero makes the radiated heat loss constantly
zero. -/
def zeroEmissivity : Conductor :=
  { drakeDefault with emissivity := 0, conductor_surface_temperature := 50 }

/-- A state at latitude pi over 2 and conductor azimuth pi over 2 on
March 22 at hour 12, otherwise the Drake defaults: on day 81 the solar
declination is exactly zero, the hour angle is zero, and the solar geometry
collapses to closed-form values. -/
def marchNoonState : Conductor :=
  { drakeDefault with
      latitude := π / 2
      azimuth_of_conductor := π / 2
      date := ⟨2023, 3, 22, 12⟩ }

/-- C7: under the Drake default scenario the film temperature is exactly 70
and the day of year is exactly 161; the film temperature is in general the
mean of the maximum allowable conductor temperature and the ambient
temperature. -/
theorem c7_film_temperature_and_day_of_year :
    t_film drakeDefault = 70 ∧
    number_of_day drakeDefault = 161 ∧
    ∀ s : Conductor,
      t_film s = (s.max_allowable_conductor_temperature + s.ambient_temperature) / 2 := by
  refine ⟨?_, ?_, fun s => rfl⟩
  · norm_num [Conductor.t_film, drakeDefault]
  · rfl

/-- C9: film temperature, air density, air viscosity, air thermal conductivity
and Reynolds number do not depend on the conductor surface temperature:
updating that field leaves all five unchanged. -/
theorem c9_air_property_layer_frame (s : Conductor) (x : ℝ) :
    t_film { s with conductor_surface_temperature := x } = t_film s ∧
    air_density { s with conductor_surface_temperature := x } = air_density s ∧
    air_viscosity { s with conductor_surface_temperature := x } = air_viscosity s ∧
    air_thermal_conductivity { s with conductor_surface_temperature := x }
      = air_thermal_conductivity s ∧
    reynolds_number { s with conductor_surface_temperature := x } = reynolds_number s :=
  ⟨rfl, rfl, rfl, rfl, rfl⟩

/-- C3 evaluation at the failing input: at elevation 1000 the code computes
the elevation correction factor with quadratic coefficient -1.108e8, giving a
large negative factor instead of the value near 1.1 that the claimed
coefficient -1.108e-8 would give. -/
theorem c3_factor_eval :
    total_solar_and_sky_radiated_heat_intensity_factor { drakeDefault with elevation := 1000 }
      < 0 ∧
    total_solar_and_sky_radiated_heat_intensity_factor { drakeDefault with elevation := 1000 }
      ≠ 1 + 1.148e-4 * 1000 + (-1.108e-8) * 1000 ^ 2 := by
  constructor <;>
    norm_num [Conductor.total_solar_and_sky_radiated_heat_intensity_factor, drakeDefault]

/-- C4: the interpolated AC resistance is the stated linear function of the
target temperature for every T (so it extrapolates by the same formula rather
than clamping), is exact at the two reference points, and is strictly
increasing when the low-temperature resistance is below the high one. -/
theorem c4_resistance_interpolation (s : Conductor)
    (hT : s.conductor_low_temperature < s.conductor_high_temperature)
    (hR : s.conductor_ac_resistance_low < s.conductor_ac_resistance_high) :
    (∀ T, interpolated_resistance s T =
      s.conductor_ac_resistance_low +
        (s.conductor_ac_resistance_high - s.conductor_ac_resistance_low) *
          (T - s.conductor_low_temperature) /
          (s.conductor_high_temperature - s.conductor_low_temperature)) ∧
    interpolated_resistance s s.conductor_low_temperature = s.conductor_ac_resistance_low ∧
    interpolated_resistance s s.conductor_high_temperature = s.conductor_ac_resistance_high ∧
    StrictMono (interpolated_resistance s) := by
  have hd : s.conductor_high_temperature - s.conductor_low_temperature ≠ 0 :=
    sub_ne_zero.mpr hT.ne'
  refine ⟨fun T => rfl, ?_, ?_, ?_⟩
  · simp [interpolated_resistance]
  · unfold interpolated_resistance
    field_simp
  · intro a b hab
    unfold interpolated_resistance
    have hdpos : 0 < s.conductor_high_temperature - s.conductor_low_temperature :=
      sub_pos.2 hT
    have hRpos : 0 < s.conductor_ac_resistance_high - s.conductor_ac_resistance_low :=
      sub_pos.2 hR
    have hmul : (s.conductor_ac_resistance_high - s.conductor_ac_resistance_low) *
        (a - s.conductor_low_temperature) <
        (s.conductor_ac_resistance_high - s.conductor_ac_resistance_low) *
        (b - s.conductor_low_temperature) :=
      mul_lt_mul_of_pos_left (by linarith) hRpos
    have := div_lt_div_of_pos_right hmul hdpos
    linarith [this]

/-- C4 witness: the interpolation theorem instantiated on the Drake reference
data. -/
theorem c4_resistance_interpolation_witness :
    (drakeDefault.conductor_low_temperature < drakeDefault.conductor_high_temperature ∧
      drakeDefault.conductor_ac_resistance_low < drakeDefault.conductor_ac_resistance_high) ∧
    (interpolated_resistance drakeDefault drakeDefault.conductor_low_temperature =
        drakeDefault.conductor_ac_resistance_low ∧
      interpolated_resistance drakeDefault drakeDefault.conductor_high_temperature =
        drakeDefault.conductor_ac_resistance_high ∧
      StrictMono (interpolated_resistance drakeDefault)) := by
  have h1 : drakeDefault.conductor_low_temperature < drakeDefault.conductor_high_temperature := by
    norm_num [drakeDefault]
  have h2 : drakeDefault.conductor_ac_resistance_low <
      drakeDefault.conductor_ac_resistance_high := by
    norm_num [drakeDefault]
  obtain ⟨-, e1, e2, e3⟩ := c4_resistance_interpolation drakeDefault h1 h2
  exact ⟨⟨h1, h2⟩, e1, e2, e3⟩

/-- C5: the solar azimuth computation signals the fatal error exactly when the
hour angle is outside the interval from -180 inclusive to 180 exclusive, and
inside it returns C plus the arctangent of X, with C given by the sign of X
and the sign of the hour angle as in the four quadrant branches. -/
theorem c5_solar_azimuth_error_and_value (s : Conductor) :
    (solar_azimuth s = none ↔ ¬(-180 ≤ hour_angle s ∧ hour_angle s < 180)) ∧
    (-180 ≤ hour_angle s → hour_angle s < 180 →
      solar_azimuth s = some
        ((if 0 ≤ solar_azimuth_X s ∧ hour_angle s < 0 then (0 : ℝ)
          else if 0 ≤ solar_azimuth_X s ∧ 0 ≤ hour_angle s then 180
          else if solar_azimuth_X s < 0 ∧ hour_angle s < 0 then 180
          else 360) + Real.arctan (solar_azimuth_X s))) := by
  constructor
  · unfold Conductor.solar_azimuth
    split_ifs with h1 h2 h3 h4
    · exact iff_of_false (by simp) (not_not_intro ⟨h1.2.1, by linarith [h1.2.2]⟩)
    · exact iff_of_false (by simp) (not_not_intro ⟨by linarith [h2.2.1], h2.2.2⟩)
    · exact iff_of_false (by simp) (not_not_intro ⟨h3.2.1, by linarith [h3.2.2]⟩)
    · exact iff_of_false (by simp) (not_not_intro ⟨by linarith [h4.2.1], h4.2.2⟩)
    · refine iff_of_true rfl ?_
      rintro ⟨ha, hb⟩
      rcases le_or_lt 0 (solar_azimuth_X s) with hX | hX
      · rcases lt_or_le (hour_angle s) 0 with hw | hw
        · exact h1 ⟨hX, ha, hw⟩
        · exact h2 ⟨hX, hw, hb⟩
      · rcases lt_or_le (hour_angle s) 0 with hw | hw
        · exact h3 ⟨hX, ha, hw⟩
        · exact h4 ⟨hX, hw, hb⟩
  · intro ha hb
    rcases le_or_lt 0 (solar_azimuth_X s) with hX | hX
    · rcases lt_or_le (hour_angle s) 0 with hw | hw
      · rw [if_pos ⟨hX, hw⟩]
        unfold Conductor.solar_azimuth
        rw [if_pos ⟨hX, ha, hw⟩]
      · rw [if_neg (by rintro ⟨-, hc⟩; linarith), if_pos ⟨hX, hw⟩]
        unfold Conductor.solar_azimuth
        rw [if_neg (by rintro ⟨-, -, hc⟩; linarith), if_pos ⟨hX, hw, hb⟩]
    · rcases lt_or_le (hour_angle s) 0 with hw | hw
      · rw [if_neg (by rintro ⟨hc, -⟩; linarith),
          if_neg (by rintro ⟨hc, -⟩; linarith), if_pos ⟨hX, hw⟩]
        unfold Conductor.solar_azimuth
        rw [if_neg (by rintro ⟨hc, -⟩; linarith),
          if_neg (by rintro ⟨hc, -⟩; linarith), if_pos ⟨hX, ha, hw⟩]
      · rw [if_neg (by rintro ⟨hc, -⟩; linarith),
          if_neg (by rintro ⟨hc, -⟩; linarith),
          if_neg (by rintro ⟨-, hc⟩; linarith)]
        unfold Conductor.solar_azimuth
        rw [if_neg (by rintro ⟨hc, -⟩; linarith),
          if_neg (by rintro ⟨hc, -⟩; linarith),
          if_neg (by rintro ⟨-, -, hc⟩; linarith), if_pos ⟨hX, hw, hb⟩]

/-- C5 witness: the theorem instantiated at the Drake default state, whose
hour angle is -15. -/
theorem c5_solar_azimuth_error_and_value_witness :
    (-180 ≤ hour_angle drakeDefault ∧ hour_angle drakeDefault < 180) ∧
    solar_azimuth drakeDefault = some
      ((if 0 ≤ solar_azimuth_X drakeDefault ∧ hour_angle drakeDefault < 0 then (0 : ℝ)
        else if 0 ≤ solar_azimuth_X drakeDefault ∧ 0 ≤ hour_angle drakeDefault then 180
        else if solar_azimuth_X drakeDefault < 0 ∧ hour_angle drakeDefault < 0 then 180
        else 360) + Real.arctan (solar_azimuth_X drakeDefault)) := by
  have ha : -180 ≤ hour_angle drakeDefault := by
    norm_num [Conductor.hour_angle, drakeDefault]
  have hb : hour_angle drakeDefault < 180 := by
    norm_num [Conductor.hour_angle, drakeDefault]
  exact ⟨⟨ha, hb⟩, (c5_solar_azimuth_error_and_value drakeDefault).2 ha hb⟩

/-- C10: for a valid calendar hour (at most 23) the hour angle lies between
-180 and 165, so the solar azimuth computation always lands in one of the four
quadrant branches and returns a value. -/
theorem c10_solar_azimuth_total_on_valid_hours (s : Conductor) (h : s.date.hour ≤ 23) :
    -180 ≤ hour_angle s ∧ hour_angle s ≤ 165 ∧ ∃ z, solar_azimuth s = some z := by
  have h23 : (s.date.hour : ℝ) ≤ 23 := by exact_mod_cast h
  have h0 : (0 : ℝ) ≤ (s.date.hour : ℝ) := Nat.cast_nonneg _
  have hlo : -180 ≤ hour_angle s := by unfold Conductor.hour_angle; nlinarith
  have hhi : hour_angle s ≤ 165 := by unfold Conductor.hour_angle; nlinarith
  refine ⟨hlo, hhi, ?_⟩
  unfold Conductor.solar_azimuth
  split_ifs with h1 h2 h3 h4
  · exact ⟨_, rfl⟩
  · exact ⟨_, rfl⟩
  · exact ⟨_, rfl⟩
  · exact ⟨_, rfl⟩
  · exfalso
    rcases le_or_lt 0 (solar_azimuth_X s) with hX | hX
    · rcases lt_or_le (hour_angle s) 0 with hw | hw
      · exact h1 ⟨hX, hlo, hw⟩
      · exact h2 ⟨hX, hw, by linarith⟩
    · rcases lt_or_le (hour_angle s) 0 with hw | hw
      · exact h3 ⟨hX, hlo, hw⟩
      · exact h4 ⟨hX, hw, by linarith⟩

/-- C10 witness: the theorem instantiated at the Drake default state. -/
theorem c10_solar_azimuth_total_on_valid_hours_witness :
    drakeDefault.date.hour ≤ 23 ∧
    (-180 ≤ hour_angle drakeDefault ∧ hour_angle drakeDefault ≤ 165 ∧
      ∃ z, solar_azimuth drakeDefault = some z) := by
  have h : drakeDefault.date.hour ≤ 23 := by norm_num [drakeDefault]
  exact ⟨h, c10_solar_azimuth_total_on_valid_hours drakeDefault h⟩

/-- C6 evaluation at the failing input: under the Drake default scenario the
code solar altitude is an arcsine value, bounded by pi over 2, so it cannot be
within 0.1 of 74.9 as the claim states. -/
theorem c6_solar_altitude_eval :
    ¬ |solar_altitude drakeDefault - 74.9| ≤ 0.1 := by
  intro h
  have h1 : solar_altitude drakeDefault ≤ π / 2 := by
    unfold Conductor.solar_altitude
    exact Real.arcsin_le_pi_div_two _
  have h2 : π ≤ 4 := Real.pi_le_four
  have h3 := abs_le.mp h
  linarith [h3.1]

/-- The wind direction factor is strictly positive for every wind direction:
writing it in terms of c = cos and s = sin of the angle it equals
1 - c + 0.388 c^2 + 0.736 s c, which is bounded away from zero on the unit
circle. -/
theorem wind_direction_factor_pos (s : Conductor) : 0 < wind_direction_factor s := by
  unfold Conductor.wind_direction_factor
  rw [Real.cos_two_mul, Real.sin_two_mul]
  have h1 := Real.sin_sq_add_cos_sq s.wind_direction
  have hc1 : -1 ≤ Real.cos s.wind_direction := Real.neg_one_le_cos _
  have hc2 : Real.cos s.wind_direction ≤ 1 := Real.cos_le_one _
  set c := Real.cos s.wind_direction
  set sn := Real.sin s.wind_direction
  have h2 : sn ^ 2 = 1 - c ^ 2 := by linarith
  have hP : 0 < 1 - c + 0.388 * c ^ 2 := by nlinarith [sq_nonneg (c - 1.25)]
  have hsq : (0.736 * (sn * c)) ^ 2 = 0.541696 * ((1 - c ^ 2) * c ^ 2) := by
    have : (0.736 * (sn * c)) ^ 2 = 0.541696 * (sn ^ 2 * c ^ 2) := by ring
    rw [this, h2]
  have hg : 0 < (1 - c + 0.388 * c ^ 2) ^ 2 - (0.736 * (sn * c)) ^ 2 := by
    rw [hsq]
    nlinarith [sq_nonneg (c ^ 2 - 0.5605 * c), sq_nonneg (c - 0.9834),
      sq_nonneg (c ^ 2 - c), sq_nonneg c, sq_nonneg (c - 1), sq_nonneg (c + 1),
      mul_nonneg (sub_nonneg.2 hc2) (sub_nonneg.2 (neg_le_iff_add_nonneg.1 hc1))]
  by_contra hcon
  push_neg at hcon
  have hle : 1 - c + 0.388 * c ^ 2 ≤ -(0.736 * (sn * c)) := by nlinarith
  have : (1 - c + 0.388 * c ^ 2) ^ 2 ≤ (0.736 * (sn * c)) ^ 2 := by nlinarith
  linarith

/-- C8 counterexample: in the zero-emissivity state the surface temperatures
50 and 60 are both above the ambient temperature 40, yet the radiated heat
loss is the same (zero) at both, so it is not strictly increasing in the
surface temperature for every state. -/
theorem c8_counterexample :
    zeroEmissivity.conductor_surface_temperature = 50 ∧
    zeroEmissivity.ambient_temperature = 40 ∧
    ({ zeroEmissivity with conductor_surface_temperature := 60 } :
        Conductor).conductor_surface_temperature = 60 ∧
    radiated_heat_loss zeroEmissivity =
      radiated_heat_loss { zeroEmissivity with conductor_surface_temperature := 60 } ∧
    ¬ radiated_heat_loss zeroEmissivity <
        radiated_heat_loss { zeroEmissivity with conductor_surface_temperature := 60 } := by
  have heq : radiated_heat_loss zeroEmissivity =
      radiated_heat_loss { zeroEmissivity with conductor_surface_temperature := 60 } := by
    unfold Conductor.radiated_heat_loss
    norm_num [zeroEmissivity, drakeDefault]
  exact ⟨rfl, rfl, rfl, heq, not_lt_of_le heq.ge⟩

/-- C8 amended: for states with positive diameter, positive emissivity,
ambient temperature at least -273, nonnegative Reynolds number and positive
air thermal conductivity, the radiated and forced-convection heat losses are
strictly increasing in the conductor surface temperature above ambient, and
the solar heat gain does not depend on the surface temperature at all. -/
theorem c8_amended_monotonicity (s : Conductor) (T1 T2 : ℝ)
    (hD : 0 < s.conductor_outside_diameter)
    (he : 0 < s.emissivity)
    (hamb : -273 ≤ s.ambient_temperature)
    (hkf : 0 < air_thermal_conductivity s)
    (hNRe : 0 ≤ reynolds_number s)
    (h1 : s.ambient_temperature < T1) (h2 : T1 < T2) :
    radiated_heat_loss { s with conductor_surface_temperature := T1 } <
      radiated_heat_loss { s with conductor_surface_temperature := T2 } ∧
    forced_convection_heat_loss { s with conductor_surface_temperature := T1 } <
      forced_convection_heat_loss { s with conductor_surface_temperature := T2 } ∧
    ∀ x : ℝ, solar_heat_gain { s with conductor_surface_temperature := x }
      = solar_heat_gain s := by
  refine ⟨?_, ?_, fun x => rfl⟩
  · unfold Conductor.radiated_heat_loss
    have hpow : ((T1 + 273) / 100) ^ 4 < ((T2 + 273) / 100) ^ 4 :=
      pow_lt_pow_left₀ (by linarith) (by linarith) (by norm_num)
    have hcoef : 0 < 17.8 * s.conductor_outside_diameter * s.emissivity := by positivity
    exact mul_lt_mul_of_pos_left (by linarith) hcoef
  · have hK := wind_direction_factor_pos s
    have hbr : (0 : ℝ) < 1.05 + 1.35 * reynolds_number s ^ (0.52 : ℝ) := by
      nlinarith [Real.rpow_nonneg hNRe 0.52]
    have hA : 0 < wind_direction_factor s * (1.05 + 1.35 * reynolds_number s ^ (0.52 : ℝ))
        * air_thermal_conductivity s := mul_pos (mul_pos hK hbr) hkf
    have hB : 0 ≤ wind_direction_factor s * 0.754 * reynolds_number s ^ (0.6 : ℝ)
        * air_thermal_conductivity s :=
      mul_nonneg (mul_nonneg (mul_nonneg hK.le (by norm_num))
        (Real.rpow_nonneg hNRe _)) hkf.le
    have hfc : ∀ T : ℝ,
        forced_convection_heat_loss { s with conductor_surface_temperature := T } =
          max (wind_direction_factor s * (1.05 + 1.35 * reynolds_number s ^ (0.52 : ℝ))
                * air_thermal_conductivity s * (T - s.ambient_temperature))
              (wind_direction_factor s * 0.754 * reynolds_number s ^ (0.6 : ℝ)
                * air_thermal_conductivity s * (T - s.ambient_temperature)) :=
      fun T => rfl
    rw [hfc T1, hfc T2]
    set A := wind_direction_factor s * (1.05 + 1.35 * reynolds_number s ^ (0.52 : ℝ))
      * air_thermal_conductivity s
    set B := wind_direction_factor s * 0.754 * reynolds_number s ^ (0.6 : ℝ)
      * air_thermal_conductivity s
    have hx1 : 0 < T1 - s.ambient_temperature := by linarith
    have hx2 : T1 - s.ambient_temperature < T2 - s.ambient_temperature := by linarith
    rcases le_total B A with hba | hab
    · rw [max_eq_left (mul_le_mul_of_nonneg_right hba hx1.le),
        max_eq_left (mul_le_mul_of_nonneg_right hba (by linarith))]
      exact mul_lt_mul_of_pos_left hx2 hA
    · have hBpos : 0 < B := lt_of_lt_of_le hA hab
      rw [max_eq_right (mul_le_mul_of_nonneg_right hab hx1.le),
        max_eq_right (mul_le_mul_of_nonneg_right hab (by linarith))]
      exact mul_lt_mul_of_pos_left hx2 hBpos

/-- C8 witness: the amended monotonicity theorem instantiated on the Drake
default state with surface temperatures 110 and 120. -/
theorem c8_amended_monotonicity_witness :
    (0 < drakeDefault.conductor_outside_diameter ∧
      0 < drakeDefault.emissivity ∧
      -273 ≤ drakeDefault.ambient_temperature ∧
      0 < air_thermal_conductivity drakeDefault ∧
      0 ≤ reynolds_number drakeDefault ∧
      drakeDefault.ambient_temperature < 110 ∧ (110 : ℝ) < 120) ∧
    (radiated_heat_loss { drakeDefault with conductor_surface_temperature := 110 } <
      radiated_heat_loss { drakeDefault with conductor_surface_temperature := 120 } ∧
    forced_convection_heat_loss { drakeDefault with conductor_surface_temperature := 110 } <
      forced_convection_heat_loss { drakeDefault with conductor_surface_temperature := 120 } ∧
    ∀ x : ℝ, solar_heat_gain { drakeDefault with conductor_surface_temperature := x }
      = solar_heat_gain drakeDefault) := by
  have hD : 0 < drakeDefault.conductor_outside_diameter := by norm_num [drakeDefault]
  have he : 0 < drakeDefault.emissivity := by norm_num [drakeDefault]
  have hamb : -273 ≤ drakeDefault.ambient_temperature := by norm_num [drakeDefault]
  have ht : t_film drakeDefault = 70 := by norm_num [Conductor.t_film, drakeDefault]
  have hkf : 0 < air_thermal_conductivity drakeDefault := by
    unfold Conductor.air_thermal_conductivity
    rw [ht]
    norm_num
  have hmu : 0 < air_viscosity drakeDefault := by
    unfold Conductor.air_viscosity
    rw [ht]
    positivity
  have hrho : 0 < air_density drakeDefault := by
    unfold Conductor.air_density
    rw [ht]
    norm_num [drakeDefault]
  have hNRe : 0 ≤ reynolds_number drakeDefault := by
    unfold Conductor.reynolds_number
    have hw : drakeDefault.wind_speed = 0.61 := rfl
    have hd : drakeDefault.conductor_outside_diameter = 0.02814 := rfl
    exact div_nonneg (by rw [hw, hd]; positivity) hmu.le
  have h1 : drakeDefault.ambient_temperature < 110 := by norm_num [drakeDefault]
  have h2 : (110 : ℝ) < 120 := by norm_num
  exact ⟨⟨hD, he, hamb, hkf, hNRe, h1, h2⟩,
    c8_amended_monotonicity drakeDefault 110 120 hD he hamb hkf hNRe h1 h2⟩

/-- On the March noon state the day of year is 81. -/
theorem marchNoonState_day : number_of_day marchNoonState = 81 := rfl

/-- On the March noon state the solar declination is exactly zero, because
the sine argument is exactly two pi. -/
theorem marchNoonState_declination : solar_declination marchNoonState = 0 := by
  unfold Conductor.solar_declination
  rw [marchNoonState_day]
  have harg : (284 + ((81 : ℕ) : ℝ)) / 365 * 360 * (π / 180) = 2 * π := by
    push_cast
    ring_nf
  rw [harg, Real.sin_two_pi, mul_zero]

/-- On the March noon state the hour angle is zero. -/
theorem marchNoonState_hour_angle : hour_angle marchNoonState = 0 := by
  norm_num [Conductor.hour_angle, marchNoonState, drakeDefault]

/-- On the March noon state the solar altitude is exactly zero. -/
theorem marchNoonState_altitude : solar_altitude marchNoonState = 0 := by
  unfold Conductor.solar_altitude
  rw [marchNoonState_declination, marchNoonState_hour_angle]
  have hlat : marchNoonState.latitude = π / 2 := rfl
  rw [hlat]
  simp [Real.cos_pi_div_two, Real.sin_pi_div_two]

/-- On the March noon state the quantity X of the solar azimuth computation
is zero. -/
theorem marchNoonState_X : solar_azimuth_X marchNoonState = 0 := by
  unfold Conductor.solar_azimuth_X
  rw [marchNoonState_hour_angle]
  simp

/-- On the March noon state the solar azimuth is 180. -/
theorem marchNoonState_azimuth : solar_azimuth marchNoonState = some 180 := by
  unfold Conductor.solar_azimuth
  rw [marchNoonState_X, marchNoonState_hour_angle]
  rw [if_neg (by norm_num), if_pos (by norm_num)]
  simp

/-- On the March noon state the elevation-corrected solar heat intensity is
exactly the constant coefficient of the clear-atmosphere polynomial. -/
theorem marchNoonState_intensity :
    total_solar_and_sky_radiated_heat_intensity marchNoonState = -42.2391 := by
  unfold Conductor.total_solar_and_sky_radiated_heat_intensity
  unfold Conductor.total_solar_and_sky_radiated_heat_intensity_factor
  unfold Conductor.total_solar_and_sky_radiated_heat_intensity_at_sea_level
  rw [marchNoonState_altitude]
  have hclear : marchNoonState.clear_atmosphere = true := rfl
  have helev : marchNoonState.elevation = 0 := rfl
  rw [hclear, helev]
  norm_num

/-- C1 counterexample and code evaluation: on the March noon state the solar
azimuth is 180, yet the solar heat gain computed by the code differs from the
spec formula that uses that azimuth in the incidence angle, because the code
uses the solar altitude in the cosine of the angle difference. -/
theorem c1_incidence_angle_uses_altitude :
    solar_azimuth marchNoonState = some 180 ∧
    solar_heat_gain marchNoonState ≠ solar_heat_gain_spec marchNoonState 180 := by
  refine ⟨marchNoonState_azimuth, ?_⟩
  have habs : marchNoonState.solar_absorption = 0.8 := rfl
  have haz : marchNoonState.azimuth_of_conductor = π / 2 := rfl
  have hdia : marchNoonState.conductor_outside_diameter = 0.02814 := rfl
  have hcode : solar_heat_gain marchNoonState = 0.8 * (-42.2391) * 1 * 0.02814 := by
    unfold Conductor.solar_heat_gain
    rw [marchNoonState_altitude, marchNoonState_intensity, habs, haz, hdia]
    rw [Real.cos_zero, zero_sub, Real.cos_neg, Real.cos_pi_div_two, one_mul,
      Real.arccos_zero, Real.sin_pi_div_two]
  have hspec : solar_heat_gain_spec marchNoonState 180 =
      0.8 * (-42.2391) * Real.sin (Real.arccos (Real.cos (180 - π / 2))) * 0.02814 := by
    unfold Conductor.solar_heat_gain_spec
    rw [marchNoonState_altitude, marchNoonState_intensity, habs, haz, hdia]
    rw [Real.cos_zero, one_mul]
  intro heq
  rw [hcode, hspec, Real.sin_arccos] at heq
  have hs1 : Real.sqrt (1 - Real.cos (180 - π / 2) ^ 2) = 1 := by linarith
  have h1c : 1 - Real.cos (180 - π / 2) ^ 2 = 1 := Real.sqrt_eq_one.mp hs1
  have hc0 : Real.cos (180 - π / 2) = 0 := by nlinarith
  obtain ⟨n, hn⟩ := Real.cos_eq_zero_iff.mp hc0
  have hpi : (180 : ℝ) = ((n : ℝ) + 1) * π := by
    linear_combination hn
  have hne : ((n : ℝ) + 1) ≠ 0 := by
    intro h0
    rw [h0, zero_mul] at hpi
    norm_num at hpi
  have hnq : ((n : ℚ) + 1) ≠ 0 := by
    intro h0
    apply hne
    have : (((n : ℚ) + 1 : ℚ) : ℝ) = ((n : ℝ) + 1) := by push_cast; ring
    rw [← this, h0]
    norm_num
  have hrat : ((180 / ((n : ℚ) + 1) : ℚ) : ℝ) = π := by
    push_cast
    rw [eq_comm, eq_div_iff (by exact_mod_cast hne)]
    push_cast at hpi
    linarith [hpi]
  exact irrational_pi ⟨180 / ((n : ℚ) + 1), hrat⟩
